import Mathlib

/-!
Shallow embedding of `src/index.tsx` (The Grand Plan): a browser page
augmented with generative-AI content.  The external generative API is
modelled as oracle data passed to each handler: a streaming call is a
`StreamResult` (the list of text fragments it delivers, in delivery
order, and whether it completes normally), an image call is an
`IconResponse`.  DOM state touched by each handler is captured in a
record; `console.error` calls are modelled by appending a tag to a
`log` field.  Each handler returns the number of generation calls it
performed alongside the new state.
-/

namespace GrandPlan

/-- Outcome of one streaming generation call: `fragments` are the text
chunks delivered in order; `ok = false` means the call throws (either
at the initial await or after delivering all of `fragments`, in which
case the partially written text is replaced by the catch handler). -/
structure StreamResult where
  fragments : List String
  ok : Bool
deriving DecidableEq

/-- The for-await loop body `surface.textContent += chunk.text`, folded
over the delivered fragments. -/
def feedFragments (surface : String) (frags : List String) : String :=
  frags.foldl (fun acc c => acc ++ c) surface

/-- Fixed strings from `index.tsx`. -/
def sectionLoadingMsg : String := "Initializing deep dive..."

def sectionErrorMsg : String := "Error accessing the data stream. Connection disrupted."

def visionFallbackMsg : String := "The vision is momentarily obscured. Please reconnect to the collective consciousness."

def chatApologyMsg : String := "Apologies, the data link is unstable. Let us try once more."

def expandLabel : String := "Explore Frontier"

def collapseLabel : String := "Seal Frontier"

/-! ## Section Expansion Controller (`handleExploreClick`, lines 13-66) -/

/-- DOM/UI state of one `.plan-section`: the `expanded` class, the
`aria-expanded` attribute, the toggle button label and disabled flag,
`dataset.content === loaded`, the text shown in `.details-container`,
the `streaming` class of the content paragraph, and the console log. -/
structure SectionState where
  expanded : Bool
  ariaExpanded : Bool
  btnLabel : String
  btnDisabled : Bool
  loaded : Bool
  details : String
  detailsStreaming : Bool
  log : List String
deriving DecidableEq

/-- One click on the Explore Frontier button (`handleExploreClick`).
`r` is the outcome the streaming API would return if a call is made.
Returns the new state and the number of `generateContentStream` calls
performed (0 or 1).  On success the details container is cleared, a
streaming paragraph accumulates the fragments, the streaming class is
removed and `dataset.content` is set to loaded; on failure the catch
logs the error and replaces the container with the fixed error text
(wholesale, so a partial mid-stream write is overwritten), and the
finally block re-enables the button either way. -/
def handleExploreClick (s : SectionState) (r : StreamResult) : SectionState × Nat :=
  let isExpanded := !s.expanded
  let s := { s with expanded := isExpanded, ariaExpanded := isExpanded }
  if isExpanded then
    let s := { s with btnLabel := collapseLabel }
    let isLoaded := s.loaded
    if !isLoaded then
      let s := { s with details := sectionLoadingMsg, btnDisabled := true }
      let s :=
        if r.ok then
          { s with details := feedFragments "" r.fragments,
                   detailsStreaming := false, loaded := true }
        else
          { s with log := s.log ++ ["Error:"],
                   details := sectionErrorMsg, detailsStreaming := false }
      ({ s with btnDisabled := false }, 1)
    else
      (s, 0)
  else
    ({ s with btnLabel := expandLabel }, 0)

/-- A sequence of toggle clicks on one section; each click is paired
with the stream outcome the API would produce for it.  Returns the
final state and the total number of generation calls. -/
def runToggles : SectionState → List StreamResult → SectionState × Nat
  | s, [] => (s, 0)
  | s, r :: rs =>
    let p := handleExploreClick s r
    let q := runToggles p.1 rs
    (q.1, p.2 + q.2)

/-- A section as rendered at page load: collapsed, not loaded, button
enabled with the expand label, empty details. -/
def initialSection : SectionState :=
  { expanded := false, ariaExpanded := false, btnLabel := expandLabel,
    btnDisabled := false, loaded := false, details := "",
    detailsStreaming := false, log := [] }

/-! ## Image Content Fetcher (`generateIcons`, lines 71-107) -/

/-- One content part of an image-model response: either plain text or
an inline base64 payload (`part.inlineData`). -/
inductive IconPart
  | text (s : String)
  | inlineData (data : String)
deriving DecidableEq

/-- Outcome of one `generateContent` image call: either the request (or
the access to `response.candidates[0].content.parts`) throws, or it
yields a well-formed list of parts. -/
inductive IconResponse
  | throws
  | ok (parts : List IconPart)
deriving DecidableEq

/-- Resolution state of one `.icon-placeholder`. -/
inductive IconResolution
  | pending
  | image (data : String)
  | fallback
deriving DecidableEq

/-- One icon placeholder: its `data-phase` label, its content, and the
inline style set by the fallback path. -/
structure Placeholder where
  phase : String
  content : IconResolution
  fontSize : Option String
  color : Option String
deriving DecidableEq

/-- The `for (const part of parts)` loop: the first part carrying
`inlineData` wins (the loop breaks there). -/
def findInline : List IconPart → Option String
  | [] => none
  | .inlineData d :: _ => some d
  | .text _ :: rest => findInline rest

/-- The body of the placeholder loop in `generateIcons`: on a thrown
error the catch logs and installs the fallback glyph with its distinct
styling; on a well-formed response the first inline payload (if any)
replaces the placeholder content with an image; a well-formed response
with no inline payload leaves the placeholder untouched.  The second
component is the console output of this iteration. -/
def processPlaceholder (p : Placeholder) (r : IconResponse) : Placeholder × List String :=
  match r with
  | .throws =>
    ({ p with content := .fallback, fontSize := some "24px", color := some "#3b82f6" },
     ["Icon generation failed:"])
  | .ok parts =>
    match findInline parts with
    | some d => ({ p with content := .image d }, [])
    | none => (p, [])

/-- `generateIcons`: sequential processing of every placeholder, one
request each, in page order; each placeholder is paired with the
response its request would produce. -/
def generateIcons : List (Placeholder × IconResponse) → List Placeholder × List String
  | [] => ([], [])
  | (p, r) :: rest =>
    let q := processPlaceholder p r
    let qs := generateIcons rest
    (q.1 :: qs.1, q.2 ++ qs.2)

/-- A response that resolves a placeholder to an image: well formed and
carrying at least one inline payload. -/
def goodResponse : IconResponse → Bool
  | .throws => false
  | .ok parts => (findInline parts).isSome

def isImage : IconResolution → Bool
  | .image _ => true
  | _ => false

def isFallback : IconResolution → Bool
  | .fallback => true
  | _ => false

def countImages (ps : List Placeholder) : Nat :=
  ps.countP (fun p => isImage p.content)

def countFallback (ps : List Placeholder) : Nat :=
  ps.countP (fun p => isFallback p.content)

/-! ## Vision Generator Controller (`generateGrandVision`, lines 112-145) -/

/-- DOM state of the vision feature: the text surface content and its
`placeholder-text` and `streaming` classes, visibility and disabled
state of the trigger button, and the console log. -/
structure VisionState where
  visionText : String
  placeholderClass : Bool
  streaming : Bool
  btnVisible : Bool
  btnDisabled : Bool
  log : List String
deriving DecidableEq

/-- `generateGrandVision`: disables the button, clears the surface and
marks it streaming, performs the streaming call; on success the
fragments are appended in order, on failure the surface text is
replaced by the fixed fallback sentence (the catch does not log); the
finally block clears the streaming mark and hides the button in every
case. -/
def generateGrandVision (v : VisionState) (r : StreamResult) : VisionState :=
  let v := { v with btnDisabled := true, placeholderClass := false,
                    visionText := "", streaming := true }
  let v :=
    if r.ok then
      { v with visionText := feedFragments v.visionText r.fragments }
    else
      { v with visionText := visionFallbackMsg }
  { v with streaming := false, btnVisible := false }

/-- A click on the vision trigger: the handler only runs when the
button is displayed and enabled (a `display:none` or disabled button
cannot be activated).  Returns the state and the number of generation
calls performed. -/
def clickVisionBtn (v : VisionState) (r : StreamResult) : VisionState × Nat :=
  if v.btnVisible && !v.btnDisabled then (generateGrandVision v r, 1) else (v, 0)

/-- The vision area at page load: empty surface with the placeholder
class, trigger visible and enabled. -/
def initialVision : VisionState :=
  { visionText := "", placeholderClass := true, streaming := false,
    btnVisible := true, btnDisabled := false, log := [] }

/-! ## Chat Session Controller (`initChat` submit handler, lines 164-204) -/

inductive Role
  | user
  | assistant
deriving DecidableEq

/-- One message div in `#chat-messages`: role class, text content,
`streaming` class. -/
structure ChatMessage where
  role : Role
  text : String
  streaming : Bool
deriving DecidableEq

/-- State touched by the chat submit handler: the module-level `chat`
handle (modelled as the id of the created session), the number of
successful `ai.chats.create` calls, the transcript, the input value,
and the console log. -/
structure ChatState where
  chat : Option Nat
  sessionCreations : Nat
  messages : List ChatMessage
  inputValue : String
  log : List String
deriving DecidableEq

/-- Oracle for one submission: `typed` is the input value at submit
time, `createOk` whether `ai.chats.create` would succeed if attempted,
`stream` the outcome of `sendMessageStream` if reached. -/
structure ChatOracle where
  typed : String
  createOk : Bool
  stream : StreamResult
deriving DecidableEq

/-- In-place mutation of the assistant div appended last: rewrite the
final element of the transcript. -/
def setLast (f : ChatMessage → ChatMessage) : List ChatMessage → List ChatMessage
  | [] => []
  | m :: ms => if ms.isEmpty then [f m] else m :: setLast f ms

/-- JavaScript `String.prototype.trim`: strip leading and trailing
whitespace (modelled over the underlying character list so that it is
kernel-computable). -/
def jsTrim (s : String) : String :=
  ⟨(((s.data.dropWhile Char.isWhitespace).reverse).dropWhile Char.isWhitespace).reverse⟩

/-- Final mutation applied to the assistant bubble: set its text and
remove the `streaming` class (the finally block). -/
def finishAssistant (t : String) (m : ChatMessage) : ChatMessage :=
  { m with text := t, streaming := false }

/-- The submit listener: trim the input and ignore empty submissions;
otherwise append the user message, clear the input, append an empty
assistant bubble marked streaming, lazily create the session while the
handle is null, then stream the reply into the bubble; the catch
replaces the bubble text with the fixed apology (without logging) and
the finally block clears its streaming mark.  Returns the state and
the number of `sendMessageStream` calls performed. -/
def handleChatSubmit (st : ChatState) (o : ChatOracle) : ChatState × Nat :=
  let message := jsTrim st.inputValue
  if message = "" then (st, 0)
  else
    let userDiv : ChatMessage := { role := .user, text := message, streaming := false }
    let assistantDiv : ChatMessage := { role := .assistant, text := "", streaming := true }
    let st := { st with messages := st.messages ++ [userDiv], inputValue := "" }
    let st := { st with messages := st.messages ++ [assistantDiv] }
    if st.chat.isNone && !o.createOk then
      ({ st with messages := setLast (finishAssistant chatApologyMsg) st.messages }, 0)
    else
      let st :=
        if st.chat.isNone then
          { st with chat := some st.sessionCreations,
                    sessionCreations := st.sessionCreations + 1 }
        else st
      if o.stream.ok then
        ({ st with messages :=
            setLast (finishAssistant (feedFragments "" o.stream.fragments)) st.messages }, 1)
      else
        ({ st with messages := setLast (finishAssistant chatApologyMsg) st.messages }, 1)

/-- One full submission event: the user types `o.typed` into the input
and submits the form. -/
def submitEvent (st : ChatState) (o : ChatOracle) : ChatState × Nat :=
  handleChatSubmit { st with inputValue := o.typed } o

/-- Any number of submission events in sequence. -/
def runChatSubmits : ChatState → List ChatOracle → ChatState × Nat
  | st, [] => (st, 0)
  | st, o :: os =>
    let p := submitEvent st o
    let q := runChatSubmits p.1 os
    (q.1, p.2 + q.2)

/-- The chat widget at page load: null session handle, empty
transcript. -/
def initialChat : ChatState :=
  { chat := none, sessionCreations := 0, messages := [], inputValue := "", log := [] }

/-! ## Helper lemmas -/

/-- The feeder starting from a cleared surface produces the plain
concatenation of the fragments. -/
theorem feedFragments_eq_join (l : List String) : feedFragments "" l = String.join l := by
  simp [feedFragments, String.join]

/-- A click on a section whose content is already loaded performs no
generation call and leaves the detail text and load state intact. -/
theorem exploreClick_loaded (s : SectionState) (r : StreamResult) (h : s.loaded = true) :
    (handleExploreClick s r).2 = 0 ∧
    (handleExploreClick s r).1.details = s.details ∧
    (handleExploreClick s r).1.loaded = true := by
  cases hexp : s.expanded <;> simp [handleExploreClick, hexp, h]

/-- Any sequence of toggles on a loaded section performs no generation
calls and preserves the detail text and load state. -/
theorem runToggles_loaded (rs : List StreamResult) (s : SectionState) (h : s.loaded = true) :
    (runToggles s rs).2 = 0 ∧
    (runToggles s rs).1.details = s.details ∧
    (runToggles s rs).1.loaded = true := by
  induction rs generalizing s with
  | nil => simp [runToggles, h]
  | cons r rs ih =>
    obtain ⟨h0, h1, h2⟩ := exploreClick_loaded s r h
    obtain ⟨h3, h4, h5⟩ := ih (handleExploreClick s r).1 h2
    simp [runToggles, h0, h1 ▸ h4, h3, h5]

/-- A concrete successful stream outcome used by witnesses. -/
def wOk : StreamResult := { fragments := ["Hello ", "world"], ok := true }

/-- A concrete failing stream outcome used by witnesses. -/
def wFail : StreamResult := { fragments := ["partial"], ok := false }

/-! ## Claims -/

/-- C1: once the first expansion of a not-loaded collapsed section
succeeds, the section is marked loaded with the streamed text cached,
and every later toggle sequence performs zero further generation calls
and keeps showing the cached detail text; that first expansion performs
exactly one generation call. -/
theorem c1_section_cache_invariant (s : SectionState) (r : StreamResult)
    (rs : List StreamResult)
    (hexp : s.expanded = false) (hload : s.loaded = false) (hok : r.ok = true) :
    (handleExploreClick s r).2 = 1 ∧
    (handleExploreClick s r).1.loaded = true ∧
    (handleExploreClick s r).1.details = String.join r.fragments ∧
    (runToggles (handleExploreClick s r).1 rs).2 = 0 ∧
    (runToggles (handleExploreClick s r).1 rs).1.details =
      (handleExploreClick s r).1.details := by
  have hl : (handleExploreClick s r).1.loaded = true := by
    simp [handleExploreClick, hexp, hload, hok]
  obtain ⟨h3, h4, _⟩ := runToggles_loaded rs _ hl
  exact ⟨by simp [handleExploreClick, hexp, hload, hok], hl,
    by simp [handleExploreClick, hexp, hload, hok, feedFragments_eq_join], h3, h4⟩

theorem c1_section_cache_invariant_witness :
    initialSection.expanded = false ∧ initialSection.loaded = false ∧ wOk.ok = true ∧
    ((handleExploreClick initialSection wOk).2 = 1 ∧
     (handleExploreClick initialSection wOk).1.loaded = true ∧
     (handleExploreClick initialSection wOk).1.details = String.join wOk.fragments ∧
     (runToggles (handleExploreClick initialSection wOk).1 [wOk, wFail]).2 = 0 ∧
     (runToggles (handleExploreClick initialSection wOk).1 [wOk, wFail]).1.details =
       (handleExploreClick initialSection wOk).1.details) :=
  ⟨rfl, rfl, rfl, c1_section_cache_invariant initialSection wOk [wOk, wFail] rfl rfl rfl⟩

/-- C2: when the first expansion call of a not-loaded collapsed section
fails, the section stays not loaded, the detail surface shows the fixed
error message, the button is re-enabled, and a later expand attempt
(collapse toggle, then expand toggle) performs zero calls on the
collapse and exactly one new generation call on the re-expansion. -/
theorem c2_retry_by_reentry (s : SectionState) (r r2 r3 : StreamResult)
    (hexp : s.expanded = false) (hload : s.loaded = false) (hfail : r.ok = false) :
    (handleExploreClick s r).1.loaded = false ∧
    (handleExploreClick s r).1.details = sectionErrorMsg ∧
    (handleExploreClick s r).1.btnDisabled = false ∧
    (handleExploreClick (handleExploreClick s r).1 r2).2 = 0 ∧
    (handleExploreClick (handleExploreClick (handleExploreClick s r).1 r2).1 r3).2 = 1 := by
  simp [handleExploreClick, hexp, hload, hfail]

theorem c2_retry_by_reentry_witness :
    initialSection.expanded = false ∧ initialSection.loaded = false ∧ wFail.ok = false ∧
    ((handleExploreClick initialSection wFail).1.loaded = false ∧
     (handleExploreClick initialSection wFail).1.details = sectionErrorMsg ∧
     (handleExploreClick initialSection wFail).1.btnDisabled = false ∧
     (handleExploreClick (handleExploreClick initialSection wFail).1 wOk).2 = 0 ∧
     (handleExploreClick
       (handleExploreClick (handleExploreClick initialSection wFail).1 wOk).1 wOk).2 = 1) :=
  ⟨rfl, rfl, rfl, c2_retry_by_reentry initialSection wFail wOk wOk rfl rfl rfl⟩

/-! ## Chat helper lemmas -/

/-- Rewriting the last element of a transcript that ends in a known
bubble rewrites exactly that bubble. -/
theorem setLast_append (f : ChatMessage → ChatMessage) (xs : List ChatMessage)
    (b : ChatMessage) : setLast f (xs ++ [b]) = xs ++ [f b] := by
  induction xs with
  | nil => rfl
  | cons x xs ih => simp [setLast, ih]

theorem setLast_append_two (f : ChatMessage → ChatMessage) (xs : List ChatMessage)
    (a b : ChatMessage) : setLast f (xs ++ [a, b]) = xs ++ [a, f b] := by
  have h : xs ++ [a, b] = (xs ++ [a]) ++ [b] := by simp
  rw [h, setLast_append]
  simp

/-- Text of the last transcript bubble. -/
def lastText (l : List ChatMessage) : Option String :=
  l.getLast?.map (fun m => m.text)

theorem lastText_append_two (xs : List ChatMessage) (a b : ChatMessage) :
    lastText (xs ++ [a, b]) = some b.text := by
  induction xs with
  | nil => rfl
  | cons x xs ih => simp [lastText, List.getLast?]

/-- An empty (after trimming) submission is rejected outright: no state
change, no generation call. -/
theorem chatSubmit_empty (st : ChatState) (o : ChatOracle)
    (h : jsTrim st.inputValue = "") : handleChatSubmit st o = (st, 0) := by
  simp [handleChatSubmit, h]

/-- Characterization of a non-empty submission when the session handle
is null and creation fails: user bubble appended, input cleared,
assistant bubble holds the apology, no send call, session still null. -/
theorem chatSubmit_createFail (st : ChatState) (o : ChatOracle)
    (hne : jsTrim st.inputValue ≠ "") (hc : st.chat = none) (ho : o.createOk = false) :
    handleChatSubmit st o =
      ({ st with
          messages := st.messages ++
            [{ role := .user, text := jsTrim st.inputValue, streaming := false },
             { role := .assistant, text := chatApologyMsg, streaming := false }],
          inputValue := "" }, 0) := by
  simp [handleChatSubmit, hne, hc, ho, setLast_append_two, finishAssistant]

/-- Characterization of a non-empty submission when a session already
exists: one send call, the assistant bubble holds the streamed text on
success and the apology on failure, session handle untouched. -/
theorem chatSubmit_someChat (st : ChatState) (o : ChatOracle) (i : Nat)
    (hne : jsTrim st.inputValue ≠ "") (hc : st.chat = some i) :
    handleChatSubmit st o =
      ({ st with
          messages := st.messages ++
            [{ role := .user, text := jsTrim st.inputValue, streaming := false },
             { role := .assistant,
               text := if o.stream.ok then feedFragments "" o.stream.fragments
                       else chatApologyMsg,
               streaming := false }],
          inputValue := "" }, 1) := by
  cases hs : o.stream.ok <;>
    simp [handleChatSubmit, hne, hc, hs, setLast_append_two, finishAssistant]

/-- Characterization of a non-empty submission when the session handle
is null and creation succeeds: the session is created (exactly one new
creation), then the send proceeds as usual. -/
theorem chatSubmit_createOk (st : ChatState) (o : ChatOracle)
    (hne : jsTrim st.inputValue ≠ "") (hc : st.chat = none) (ho : o.createOk = true) :
    handleChatSubmit st o =
      ({ st with
          chat := some st.sessionCreations,
          sessionCreations := st.sessionCreations + 1,
          messages := st.messages ++
            [{ role := .user, text := jsTrim st.inputValue, streaming := false },
             { role := .assistant,
               text := if o.stream.ok then feedFragments "" o.stream.fragments
                       else chatApologyMsg,
               streaming := false }],
          inputValue := "" }, 1) := by
  cases hs : o.stream.ok <;>
    simp [handleChatSubmit, hne, hc, ho, hs, setLast_append_two, finishAssistant]

/-- One submission never touches an existing session handle or the
creation count. -/
theorem chatSubmit_chat_some (st : ChatState) (o : ChatOracle) (i : Nat)
    (hc : st.chat = some i) :
    (handleChatSubmit st o).1.chat = some i ∧
    (handleChatSubmit st o).1.sessionCreations = st.sessionCreations := by
  by_cases h : jsTrim st.inputValue = ""
  · simp [chatSubmit_empty st o h, hc]
  · simp [chatSubmit_someChat st o i h hc, hc]

/-- From a null handle, one submission either leaves the handle null
with no new creation, or installs a fresh session with exactly one new
creation. -/
theorem chatSubmit_chat_none (st : ChatState) (o : ChatOracle) (hc : st.chat = none) :
    ((handleChatSubmit st o).1.chat = none ∧
     (handleChatSubmit st o).1.sessionCreations = st.sessionCreations) ∨
    ((handleChatSubmit st o).1.chat = some st.sessionCreations ∧
     (handleChatSubmit st o).1.sessionCreations = st.sessionCreations + 1) := by
  by_cases h : jsTrim st.inputValue = ""
  · left; simp [chatSubmit_empty st o h, hc]
  · cases ho : o.createOk
    · left; simp [chatSubmit_createFail st o h hc ho, hc]
    · right; simp [chatSubmit_createOk st o h hc ho]

/-- Once a session exists, any sequence of submission events keeps the
same handle and performs no further creations. -/
theorem runChat_some (os : List ChatOracle) (st : ChatState) (i : Nat)
    (hc : st.chat = some i) :
    (runChatSubmits st os).1.chat = some i ∧
    (runChatSubmits st os).1.sessionCreations = st.sessionCreations := by
  induction os generalizing st with
  | nil => exact ⟨hc, rfl⟩
  | cons o os ih =>
    obtain ⟨ha, hb⟩ := chatSubmit_chat_some { st with inputValue := o.typed } o i hc
    obtain ⟨h1, h2⟩ := ih (submitEvent st o).1 ha
    refine ⟨?_, ?_⟩
    · simpa [runChatSubmits] using h1
    · simp only [runChatSubmits]
      exact h2.trans hb

/-- From a null handle, any sequence of submission events performs at
most one session creation. -/
theorem runChat_none_le (os : List ChatOracle) (t : ChatState) (hc : t.chat = none) :
    (runChatSubmits t os).1.sessionCreations ≤ t.sessionCreations + 1 := by
  induction os generalizing t with
  | nil => simp [runChatSubmits]
  | cons o os ih =>
    rcases chatSubmit_chat_none { t with inputValue := o.typed } o hc with
      ⟨h1, h2⟩ | ⟨h1, h2⟩
    · have h3 := ih (submitEvent t o).1 h1
      have h4 : (submitEvent t o).1.sessionCreations = t.sessionCreations := h2
      simp only [runChatSubmits]
      rw [h4] at h3
      exact h3
    · have h1a : (submitEvent t o).1.chat = some t.sessionCreations := h1
      have h2a : (submitEvent t o).1.sessionCreations = t.sessionCreations + 1 := h2
      have h3 := (runChat_some os (submitEvent t o).1 t.sessionCreations h1a).2
      simp only [runChatSubmits]
      rw [h3, h2a]

/-- A concrete chat state whose session already exists, used by
witnesses. -/
def wChatLoaded : ChatState :=
  { chat := some 0, sessionCreations := 1, messages := [], inputValue := "", log := [] }

/-- A concrete chat state with a pending non-empty input, used by
witnesses. -/
def wChatTyped : ChatState :=
  { initialChat with inputValue := "  Hello  " }

/-- C6: a submission whose trimmed input is non-empty appends exactly
one user bubble carrying the trimmed text and exactly one assistant
bubble, and clears the input; a submission whose trimmed input is empty
changes nothing and performs no network call (no send, and the state,
including the session handle and creation count, is untouched). -/
theorem c6_chat_submission (st : ChatState) (o : ChatOracle) :
    (jsTrim st.inputValue = "" → handleChatSubmit st o = (st, 0)) ∧
    (jsTrim st.inputValue ≠ "" →
      (handleChatSubmit st o).1.inputValue = "" ∧
      ∃ t : String, (handleChatSubmit st o).1.messages =
        st.messages ++
          [{ role := .user, text := jsTrim st.inputValue, streaming := false },
           { role := .assistant, text := t, streaming := false }]) := by
  refine ⟨fun h => chatSubmit_empty st o h, fun hne => ?_⟩
  rcases hc : st.chat with _ | i
  · cases ho : o.createOk
    · rw [chatSubmit_createFail st o hne hc ho]
      exact ⟨rfl, chatApologyMsg, rfl⟩
    · rw [chatSubmit_createOk st o hne hc ho]
      exact ⟨rfl, _, rfl⟩
  · rw [chatSubmit_someChat st o i hne hc]
    exact ⟨rfl, _, rfl⟩

theorem c6_chat_submission_witness :
    jsTrim wChatTyped.inputValue ≠ "" ∧
    ((handleChatSubmit wChatTyped { typed := "", createOk := true, stream := wOk }).1.inputValue = "" ∧
     ∃ t : String,
       (handleChatSubmit wChatTyped { typed := "", createOk := true, stream := wOk }).1.messages =
         wChatTyped.messages ++
           [{ role := .user, text := jsTrim wChatTyped.inputValue, streaming := false },
            { role := .assistant, text := t, streaming := false }]) :=
  ⟨by decide,
   (c6_chat_submission wChatTyped { typed := "", createOk := true, stream := wOk }).2 (by decide)⟩

/-- C7: starting from the page-load state (null handle), any sequence
of submission events performs at most one session creation; and from
any state already holding session `i`, every later submission sequence
keeps exactly that handle and performs zero further creations (the
session is never recreated or destroyed). -/
theorem c7_session_created_once (os os2 : List ChatOracle) (st : ChatState) (i : Nat)
    (h : st.chat = some i) :
    (runChatSubmits initialChat os).1.sessionCreations ≤ 1 ∧
    (runChatSubmits st os2).1.chat = some i ∧
    (runChatSubmits st os2).1.sessionCreations = st.sessionCreations := by
  obtain ⟨h1, h2⟩ := runChat_some os2 st i h
  exact ⟨runChat_none_le os initialChat rfl, h1, h2⟩

theorem c7_session_created_once_witness :
    wChatLoaded.chat = some 0 ∧
    ((runChatSubmits initialChat
        [{ typed := "a", createOk := true, stream := wOk },
         { typed := "b", createOk := true, stream := wFail }]).1.sessionCreations ≤ 1 ∧
     (runChatSubmits wChatLoaded
        [{ typed := "c", createOk := false, stream := wOk }]).1.chat = some 0 ∧
     (runChatSubmits wChatLoaded
        [{ typed := "c", createOk := false, stream := wOk }]).1.sessionCreations =
       wChatLoaded.sessionCreations) :=
  ⟨rfl,
   c7_session_created_once
     [{ typed := "a", createOk := true, stream := wOk },
      { typed := "b", createOk := true, stream := wFail }]
     [{ typed := "c", createOk := false, stream := wOk }] wChatLoaded 0 rfl⟩

/-- C10: a failing submission (session creation throws, or the send or
its stream throws) leaves the transcript exactly as the successful
prefix built it: all prior messages intact, the new user bubble with the
trimmed text still present, the input cleared, and the new assistant
bubble holding the fixed apology with its streaming mark removed; the
log is also untouched. -/
theorem c10_chat_failure_frame (st : ChatState) (o : ChatOracle)
    (hne : jsTrim st.inputValue ≠ "")
    (hfail : (st.chat = none ∧ o.createOk = false) ∨ o.stream.ok = false) :
    (handleChatSubmit st o).1.messages =
      st.messages ++
        [{ role := .user, text := jsTrim st.inputValue, streaming := false },
         { role := .assistant, text := chatApologyMsg, streaming := false }] ∧
    (handleChatSubmit st o).1.inputValue = "" ∧
    (handleChatSubmit st o).1.log = st.log := by
  rcases hc : st.chat with _ | i
  · cases ho : o.createOk
    · rw [chatSubmit_createFail st o hne hc ho]
      exact ⟨rfl, rfl, rfl⟩
    · rcases hfail with ⟨_, hcf⟩ | hs
      · exact absurd ho (by simp [hcf])
      · rw [chatSubmit_createOk st o hne hc ho]
        simp [hs]
  · rcases hfail with ⟨hcn, _⟩ | hs
    · exact absurd hc (by simp [hcn])
    · rw [chatSubmit_someChat st o i hne hc]
      simp [hs]

theorem c10_chat_failure_frame_witness :
    jsTrim wChatTyped.inputValue ≠ "" ∧ wFail.ok = false ∧
    ((handleChatSubmit wChatTyped { typed := "", createOk := true, stream := wFail }).1.messages =
       wChatTyped.messages ++
         [{ role := .user, text := jsTrim wChatTyped.inputValue, streaming := false },
          { role := .assistant, text := chatApologyMsg, streaming := false }] ∧
     (handleChatSubmit wChatTyped { typed := "", createOk := true, stream := wFail }).1.inputValue = "" ∧
     (handleChatSubmit wChatTyped { typed := "", createOk := true, stream := wFail }).1.log =
       wChatTyped.log) :=
  ⟨by decide, rfl,
   c10_chat_failure_frame wChatTyped { typed := "", createOk := true, stream := wFail }
     (by decide) (Or.inr rfl)⟩

/-- C3: for every successfully completed stream, the final text of the
target surface — section detail, vision surface, or assistant chat
bubble — is exactly the concatenation of the delivered fragments in
delivery order (no reordering, drops, or duplication). -/
theorem c3_stream_append_order (s : SectionState) (r : StreamResult) (v : VisionState)
    (st : ChatState) (o : ChatOracle)
    (hexp : s.expanded = false) (hload : s.loaded = false) (hok : r.ok = true)
    (hne : jsTrim st.inputValue ≠ "") (hready : st.chat = none → o.createOk = true)
    (hsok : o.stream.ok = true) :
    (handleExploreClick s r).1.details = String.join r.fragments ∧
    (generateGrandVision v r).visionText = String.join r.fragments ∧
    lastText (handleChatSubmit st o).1.messages = some (String.join o.stream.fragments) := by
  refine ⟨by simp [handleExploreClick, hexp, hload, hok, feedFragments_eq_join], ?_, ?_⟩
  · simp [generateGrandVision, hok, feedFragments_eq_join]
  · rcases hc : st.chat with _ | i
    · rw [chatSubmit_createOk st o hne hc (hready hc)]
      simp [hsok, lastText_append_two, feedFragments_eq_join]
    · rw [chatSubmit_someChat st o i hne hc]
      simp [hsok, lastText_append_two, feedFragments_eq_join]

theorem c3_stream_append_order_witness :
    initialSection.expanded = false ∧ initialSection.loaded = false ∧ wOk.ok = true ∧
    jsTrim wChatTyped.inputValue ≠ "" ∧
    ((handleExploreClick initialSection wOk).1.details = String.join wOk.fragments ∧
     (generateGrandVision initialVision wOk).visionText = String.join wOk.fragments ∧
     lastText (handleChatSubmit wChatTyped
         { typed := "", createOk := true, stream := wOk }).1.messages =
       some (String.join wOk.fragments)) :=
  ⟨rfl, rfl, rfl, by decide,
   c3_stream_append_order initialSection wOk initialVision wChatTyped
     { typed := "", createOk := true, stream := wOk }
     rfl rfl rfl (by decide) (fun _ => rfl) rfl⟩

/-- C8: after the vision generator resolves — success or failure — the
trigger button is hidden (and a further click on it is a no-op with
zero generation calls, so it cannot be triggered again) and the
streaming mark is cleared; on failure the surface holds the fixed
fallback sentence, which differs from the generic feeder error text. -/
theorem c8_vision_one_shot (v : VisionState) (r r2 : StreamResult) :
    (generateGrandVision v r).btnVisible = false ∧
    (generateGrandVision v r).streaming = false ∧
    (generateGrandVision v r).visionText =
      (if r.ok then String.join r.fragments else visionFallbackMsg) ∧
    visionFallbackMsg ≠ sectionErrorMsg ∧
    clickVisionBtn (generateGrandVision v r) r2 = (generateGrandVision v r, 0) := by
  cases hok : r.ok <;>
    simp [generateGrandVision, clickVisionBtn, hok, feedFragments_eq_join] <;>
    decide

theorem c8_vision_one_shot_witness :
    (generateGrandVision initialVision wFail).btnVisible = false ∧
    (generateGrandVision initialVision wFail).streaming = false ∧
    (generateGrandVision initialVision wFail).visionText =
      (if wFail.ok then String.join wFail.fragments else visionFallbackMsg) ∧
    visionFallbackMsg ≠ sectionErrorMsg ∧
    clickVisionBtn (generateGrandVision initialVision wFail) wOk =
      (generateGrandVision initialVision wFail, 0) :=
  c8_vision_one_shot initialVision wFail wOk

/-! ## Icon helper lemmas -/

theorem generateIcons_append (xs ys : List (Placeholder × IconResponse)) :
    (generateIcons (xs ++ ys)).1 = (generateIcons xs).1 ++ (generateIcons ys).1 := by
  induction xs with
  | nil => simp [generateIcons]
  | cons x xs ih => cases x with | mk p r => simp [generateIcons, ih]

theorem generateIcons_length (xs : List (Placeholder × IconResponse)) :
    (generateIcons xs).1.length = xs.length := by
  induction xs with
  | nil => rfl
  | cons x xs ih => cases x with | mk p r => simp [generateIcons, ih]

/-- A good response always resolves the placeholder to an image. -/
theorem processPlaceholder_good (p : Placeholder) (r : IconResponse)
    (h : goodResponse r = true) :
    ∃ d, (processPlaceholder p r).1.content = .image d := by
  cases r with
  | throws => simp [goodResponse] at h
  | ok parts =>
    rw [goodResponse, Option.isSome_iff_exists] at h
    obtain ⟨d, hd⟩ := h
    exact ⟨d, by simp [processPlaceholder, hd]⟩

theorem countImages_cons (x : Placeholder) (l : List Placeholder) :
    countImages (x :: l) = countImages l + (if isImage x.content then 1 else 0) := by
  simp [countImages, List.countP_cons]

theorem countFallback_cons (x : Placeholder) (l : List Placeholder) :
    countFallback (x :: l) = countFallback l + (if isFallback x.content then 1 else 0) := by
  simp [countFallback, List.countP_cons]

theorem countImages_append (a b : List Placeholder) :
    countImages (a ++ b) = countImages a + countImages b := by
  simp [countImages, List.countP_append]

theorem countFallback_append (a b : List Placeholder) :
    countFallback (a ++ b) = countFallback a + countFallback b := by
  simp [countFallback, List.countP_append]

/-- A run over placeholders whose responses are all good yields one
image per placeholder and no fallback. -/
theorem generateIcons_good_counts (xs : List (Placeholder × IconResponse))
    (h : ∀ x ∈ xs, goodResponse x.2 = true) :
    countImages (generateIcons xs).1 = xs.length ∧
    countFallback (generateIcons xs).1 = 0 := by
  induction xs with
  | nil => simp [generateIcons, countImages, countFallback]
  | cons x xs ih =>
    have hx : goodResponse x.2 = true := h x (List.mem_cons_self x xs)
    have hxs : ∀ y ∈ xs, goodResponse y.2 = true := fun y hy => h y (List.mem_cons_of_mem x hy)
    cases x with | mk p r =>
    obtain ⟨d, hd⟩ := processPlaceholder_good p r hx
    obtain ⟨h1, h2⟩ := ih hxs
    have hstep : (generateIcons ((p, r) :: xs)).1 =
        (processPlaceholder p r).1 :: (generateIcons xs).1 := rfl
    rw [hstep, countImages_cons, countFallback_cons, h1, h2, hd]
    simp [isImage, isFallback]

/-! ## Icon claims -/

/-- C4 counterexample: a well-formed response that carries no inline
image payload leaves the placeholder in its pending state — it is not
replaced by the fallback glyph, contrary to the claim that every
placeholder resolves to an image or the fallback. -/
theorem c4_no_payload_counterexample :
    (processPlaceholder
        { phase := "Phase 1", content := .pending, fontSize := none, color := none }
        (IconResponse.ok [IconPart.text "a textual answer"])).1.content = .pending ∧
    (processPlaceholder
        { phase := "Phase 1", content := .pending, fontSize := none, color := none }
        (IconResponse.ok [IconPart.text "a textual answer"])).1.content ≠ .fallback :=
  ⟨rfl, by decide⟩

/-- C4 (amended): a thrown request error resolves the placeholder to
the fallback glyph with its distinct styling, and a response whose
parts contain an inline payload resolves it to that image; but a
well-formed response with no inline payload leaves the placeholder
entirely unchanged (still pending), with nothing logged. -/
theorem c4_icon_resolution (p : Placeholder) (parts : List IconPart) :
    ((processPlaceholder p IconResponse.throws).1.content = .fallback ∧
     (processPlaceholder p IconResponse.throws).1.fontSize = some "24px" ∧
     (processPlaceholder p IconResponse.throws).1.color = some "#3b82f6") ∧
    (∀ d, findInline parts = some d →
      (processPlaceholder p (IconResponse.ok parts)).1.content = .image d) ∧
    (findInline parts = none →
      processPlaceholder p (IconResponse.ok parts) = (p, [])) := by
  refine ⟨⟨rfl, rfl, rfl⟩, ?_, ?_⟩
  · intro d hd
    simp [processPlaceholder, hd]
  · intro hd
    simp [processPlaceholder, hd]

theorem c4_icon_resolution_witness :
    findInline [IconPart.text "t", IconPart.inlineData "QUJD"] = some "QUJD" ∧
    ((processPlaceholder
        { phase := "Phase 2", content := .pending, fontSize := none, color := none }
        IconResponse.throws).1.content = .fallback ∧
     (processPlaceholder
        { phase := "Phase 2", content := .pending, fontSize := none, color := none }
        IconResponse.throws).1.fontSize = some "24px" ∧
     (processPlaceholder
        { phase := "Phase 2", content := .pending, fontSize := none, color := none }
        IconResponse.throws).1.color = some "#3b82f6") ∧
    (processPlaceholder
        { phase := "Phase 2", content := .pending, fontSize := none, color := none }
        (IconResponse.ok [IconPart.text "t", IconPart.inlineData "QUJD"])).1.content =
      .image "QUJD" :=
  ⟨rfl,
   (c4_icon_resolution
      { phase := "Phase 2", content := .pending, fontSize := none, color := none }
      [IconPart.text "t", IconPart.inlineData "QUJD"]).1,
   (c4_icon_resolution
      { phase := "Phase 2", content := .pending, fontSize := none, color := none }
      [IconPart.text "t", IconPart.inlineData "QUJD"]).2.1 "QUJD" rfl⟩

/-- C5: one thrown failure in the middle of the placeholder list does
not block the rest: with every other response good, the run resolves
all placeholders, producing one image per non-failing placeholder and
exactly one fallback glyph (on the failing one). -/
theorem c5_failure_isolation (pre post : List (Placeholder × IconResponse)) (pf : Placeholder)
    (hpre : ∀ x ∈ pre, goodResponse x.2 = true)
    (hpost : ∀ x ∈ post, goodResponse x.2 = true) :
    (generateIcons (pre ++ (pf, IconResponse.throws) :: post)).1.length =
      pre.length + 1 + post.length ∧
    countImages (generateIcons (pre ++ (pf, IconResponse.throws) :: post)).1 =
      pre.length + post.length ∧
    countFallback (generateIcons (pre ++ (pf, IconResponse.throws) :: post)).1 = 1 ∧
    (processPlaceholder pf IconResponse.throws).1.content = .fallback := by
  obtain ⟨hpre1, hpre2⟩ := generateIcons_good_counts pre hpre
  obtain ⟨hpost1, hpost2⟩ := generateIcons_good_counts post hpost
  refine ⟨?_, ?_, ?_, rfl⟩
  · rw [generateIcons_length]
    simp only [List.length_append, List.length_cons]
    omega
  · rw [generateIcons_append]
    rw [show (generateIcons ((pf, IconResponse.throws) :: post)).1 =
        (processPlaceholder pf IconResponse.throws).1 :: (generateIcons post).1 from rfl]
    rw [countImages_append, countImages_cons, hpre1, hpost1]
    simp [processPlaceholder, isImage]
  · rw [generateIcons_append]
    rw [show (generateIcons ((pf, IconResponse.throws) :: post)).1 =
        (processPlaceholder pf IconResponse.throws).1 :: (generateIcons post).1 from rfl]
    rw [countFallback_append, countFallback_cons, hpre2, hpost2]
    simp [processPlaceholder, isFallback]

/-- A concrete pending placeholder used by witnesses. -/
def wPend (n : String) : Placeholder :=
  { phase := n, content := .pending, fontSize := none, color := none }

theorem c5_failure_isolation_witness :
    goodResponse (IconResponse.ok [IconPart.inlineData "ZDE="]) = true ∧
    goodResponse (IconResponse.ok [IconPart.text "x", IconPart.inlineData "ZDM="]) = true ∧
    ((generateIcons
        [(wPend "P1", IconResponse.ok [IconPart.inlineData "ZDE="]),
         (wPend "P2", IconResponse.throws),
         (wPend "P3", IconResponse.ok [IconPart.text "x", IconPart.inlineData "ZDM="])]).1.length =
      1 + 1 + 1 ∧
     countImages (generateIcons
        [(wPend "P1", IconResponse.ok [IconPart.inlineData "ZDE="]),
         (wPend "P2", IconResponse.throws),
         (wPend "P3", IconResponse.ok [IconPart.text "x", IconPart.inlineData "ZDM="])]).1 =
      1 + 1 ∧
     countFallback (generateIcons
        [(wPend "P1", IconResponse.ok [IconPart.inlineData "ZDE="]),
         (wPend "P2", IconResponse.throws),
         (wPend "P3", IconResponse.ok [IconPart.text "x", IconPart.inlineData "ZDM="])]).1 = 1 ∧
     (processPlaceholder (wPend "P2") IconResponse.throws).1.content = .fallback) :=
  ⟨rfl, rfl,
   c5_failure_isolation
     [(wPend "P1", IconResponse.ok [IconPart.inlineData "ZDE="])]
     [(wPend "P3", IconResponse.ok [IconPart.text "x", IconPart.inlineData "ZDM="])]
     (wPend "P2") (by decide) (by decide)⟩

/-! ## Error propagation (C9) -/

/-- C9 counterexample: a failing vision stream is converted to the
fixed fallback sentence but nothing is logged at that boundary — the
vision catch block performs no diagnostic logging; and a malformed icon
response (well formed, no inline payload) is neither converted to the
fallback glyph nor logged — the placeholder run returns it unchanged
with empty console output. -/
theorem c9_unlogged_vision_failure :
    ((generateGrandVision initialVision { fragments := ["halfway"], ok := false }).visionText =
       visionFallbackMsg ∧
     (generateGrandVision initialVision { fragments := ["halfway"], ok := false }).log = []) ∧
    (processPlaceholder
        { phase := "Phase 9", content := .pending, fontSize := none, color := none }
        (IconResponse.ok [IconPart.text "model returned prose"]) =
      ({ phase := "Phase 9", content := .pending, fontSize := none, color := none }, []) ∧
     IconResolution.pending ≠ IconResolution.fallback) :=
  ⟨⟨rfl, rfl⟩, rfl, by decide⟩

/-- C9 (amended): every thrown transport or service failure is
converted to its fixed user-facing fallback message or glyph at the
controller boundary, but only the section-expansion and icon-fetcher
boundaries log it; the vision generator and chat handlers convert
without logging (their log state is unchanged); and the
malformed-response case — a well-formed icon response with no inline
payload — is neither converted nor logged: the placeholder is returned
unchanged with empty console output. -/
theorem c9_fallbacks_partial_logging (s : SectionState) (r : StreamResult)
    (p : Placeholder) (parts : List IconPart) (v : VisionState)
    (st : ChatState) (o : ChatOracle)
    (hexp : s.expanded = false) (hload : s.loaded = false) (hr : r.ok = false)
    (hne : jsTrim st.inputValue ≠ "") (hsf : o.stream.ok = false)
    (hnp : findInline parts = none) :
    ((handleExploreClick s r).1.details = sectionErrorMsg ∧
     (handleExploreClick s r).1.log = s.log ++ ["Error:"]) ∧
    ((processPlaceholder p IconResponse.throws).1.content = .fallback ∧
     (processPlaceholder p IconResponse.throws).2 = ["Icon generation failed:"]) ∧
    ((generateGrandVision v r).visionText = visionFallbackMsg ∧
     (generateGrandVision v r).log = v.log) ∧
    (lastText (handleChatSubmit st o).1.messages = some chatApologyMsg ∧
     (handleChatSubmit st o).1.log = st.log) ∧
    processPlaceholder p (IconResponse.ok parts) = (p, []) := by
  refine ⟨⟨?_, ?_⟩, ⟨rfl, rfl⟩, ⟨?_, ?_⟩, ?_, by simp [processPlaceholder, hnp]⟩
  · simp [handleExploreClick, hexp, hload, hr]
  · simp [handleExploreClick, hexp, hload, hr]
  · simp [generateGrandVision, hr]
  · simp [generateGrandVision, hr]
  · rcases hc : st.chat with _ | i
    · cases ho : o.createOk
      · rw [chatSubmit_createFail st o hne hc ho]
        exact ⟨by simp [lastText_append_two], rfl⟩
      · rw [chatSubmit_createOk st o hne hc ho]
        exact ⟨by simp [hsf, lastText_append_two], rfl⟩
    · rw [chatSubmit_someChat st o i hne hc]
      exact ⟨by simp [hsf, lastText_append_two], rfl⟩

theorem c9_fallbacks_partial_logging_witness :
    initialSection.expanded = false ∧ initialSection.loaded = false ∧ wFail.ok = false ∧
    jsTrim wChatTyped.inputValue ≠ "" ∧
    findInline [IconPart.text "just words"] = none ∧
    (((handleExploreClick initialSection wFail).1.details = sectionErrorMsg ∧
      (handleExploreClick initialSection wFail).1.log = initialSection.log ++ ["Error:"]) ∧
     ((processPlaceholder (wPend "P4") IconResponse.throws).1.content = .fallback ∧
      (processPlaceholder (wPend "P4") IconResponse.throws).2 = ["Icon generation failed:"]) ∧
     ((generateGrandVision initialVision wFail).visionText = visionFallbackMsg ∧
      (generateGrandVision initialVision wFail).log = initialVision.log) ∧
     (lastText (handleChatSubmit wChatTyped
         { typed := "", createOk := true, stream := wFail }).1.messages = some chatApologyMsg ∧
      (handleChatSubmit wChatTyped
         { typed := "", createOk := true, stream := wFail }).1.log = wChatTyped.log) ∧
     processPlaceholder (wPend "P4") (IconResponse.ok [IconPart.text "just words"]) =
       (wPend "P4", [])) :=
  ⟨rfl, rfl, rfl, by decide, rfl,
   c9_fallbacks_partial_logging initialSection wFail (wPend "P4") [IconPart.text "just words"]
     initialVision wChatTyped
     { typed := "", createOk := true, stream := wFail } rfl rfl rfl (by decide) rfl rfl⟩

end GrandPlan
